import Mathlib

/-!
Shallow embedding of the Synacor challenge virtual machine (`synacor.py`).

The VM state carries a 32768-word memory (numpy `uint16` array, modelled as a
function with writes truncated mod 65536 and reads bounds-checked), eight
registers, an unbounded stack, the instruction pointer, and the stream of
characters emitted by OUT.  Python exceptions raised by the handlers
(`RuntimeError` in `set_ip` / `load_value` / `store_value` / `_pop`,
`ValueError` from the `OpCode` conversion, `KeyError` from the `OPCODES` dict,
numpy `IndexError` on out-of-range indexing) are modelled as `Fault` values;
a fault carries the state as mutated up to the point of the raise.
-/

inductive OpCode where
  | HALT | SET | PUSH | POP | EQ | GT | JMP | JT | JF | ADD | MULT
  | MOD | AND | OR | NOT | RMEM | WMEM | CALL | RET | OUT | IN | NOOP
deriving DecidableEq, Repr

def MEM_SIZE : Nat := 32768

def REG_COUNT : Nat := 8

def MAX_LITERAL : Nat := 32767

def MAX_REGISTER : Nat := 32775

/-- Python-level failure modes of one interpreter cycle.  `IpOutOfRange` is the
`RuntimeError` in `set_ip`; `InvalidOperand` the `RuntimeError` in `load_value`;
`InvalidAddress` the `RuntimeError` in `store_value`; `StackUnderflow` the
`RuntimeError` in `_pop`; `IllegalOpcode` the `ValueError` raised by
`OpCode(word)` for a word outside 0..21; `MissingHandler` the `KeyError` from
the `OPCODES` dict (which omits `OpCode.IN`); `IndexOutOfRange` a numpy
`IndexError` from indexing `_memory` at or beyond 32768.  `DivideByZero` is the
fault the design document prescribes for MOD with zero divisor; the code never
raises it. -/
inductive Fault where
  | IpOutOfRange
  | InvalidOperand
  | InvalidAddress
  | StackUnderflow
  | IllegalOpcode
  | MissingHandler
  | IndexOutOfRange
  | DivideByZero
deriving DecidableEq, Repr

structure VMState where
  memory : Nat → Nat
  registers : Nat → Nat
  stack : List Nat
  ip : Nat
  output : List Nat

/-- Result of one dispatch cycle: the handler returned `True` (keep running),
returned `False` (`_halt`, or `_ret` on an empty stack: the `run` loop breaks),
or raised (the carried state holds every mutation made before the raise). -/
inductive StepResult where
  | running : VMState → StepResult
  | halted : VMState → StepResult
  | faulted : Fault → VMState → StepResult

def StepResult.stateOf : StepResult → VMState
  | .running s => s
  | .halted s => s
  | .faulted _ s => s

def StepResult.isRunning : StepResult → Bool
  | .running _ => true
  | _ => false

def StepResult.isHalted : StepResult → Bool
  | .halted _ => true
  | _ => false

def StepResult.faultOf : StepResult → Option Fault
  | .faulted f _ => some f
  | _ => none

/-- Pointwise function update, used for writes to the memory and register
arrays. -/
def updFn (f : Nat → Nat) (a v : Nat) : Nat → Nat :=
  fun x => if x = a then v else f x

/-- Source `VM.set_ip`: accept a new instruction pointer below `MEM_SIZE`, raise
`RuntimeError` otherwise (the wrap-around alternative is commented out in the
source). -/
def set_ip (s : VMState) (ip : Nat) : Except Fault VMState :=
  if ip < MEM_SIZE then .ok { s with ip := ip } else .error .IpOutOfRange

/-- Source `VM.inc_ip`: advance the instruction pointer through `set_ip`. -/
def inc_ip (s : VMState) (count : Nat) : Except Fault VMState :=
  set_ip s (s.ip + count)

/-- Source `VM.load_value`: a value up to `MAX_LITERAL` is itself; up to
`MAX_REGISTER` it aliases a register; beyond that `RuntimeError`. -/
def load_value (s : VMState) (value : Nat) : Except Fault Nat :=
  if value ≤ MAX_LITERAL then .ok value
  else if value ≤ MAX_REGISTER then .ok (s.registers (value - 32768))
  else .error .InvalidOperand

/-- Source `VM.store_value`: an address below `MEM_SIZE` is a memory slot, up to
`MAX_REGISTER` a register, beyond that `RuntimeError`.  The uint16 cells
truncate the stored value mod 65536. -/
def store_value (s : VMState) (value address : Nat) : Except Fault VMState :=
  if address < MEM_SIZE then
    .ok { s with memory := updFn s.memory address (value % 65536) }
  else if address ≤ MAX_REGISTER then
    .ok { s with registers := updFn s.registers (address - 32768) (value % 65536) }
  else .error .InvalidAddress

/-- Read `self._memory[idx]`: numpy raises `IndexError` at or beyond 32768. -/
def memRead (s : VMState) (idx : Nat) : Except Fault Nat :=
  if idx < MEM_SIZE then .ok (s.memory idx) else .error .IndexOutOfRange

/-- Write `self._memory[idx] = v` directly (as `_wmem` does, bypassing
`store_value`): numpy raises `IndexError` at or beyond 32768. -/
def memWrite (s : VMState) (idx v : Nat) : Except Fault VMState :=
  if idx < MEM_SIZE then .ok { s with memory := updFn s.memory idx (v % 65536) }
  else .error .IndexOutOfRange

/-- The word now held at a `store_value` destination: memory cell below
`MEM_SIZE`, register above. -/
def stored_at (s : VMState) (address : Nat) : Nat :=
  if address < MEM_SIZE then s.memory address else s.registers (address - 32768)

/-- Sequence a fallible sub-operation inside a handler: a raise turns into a
`faulted` result carrying the state `s` as mutated so far. -/
def orFault {α : Type} (e : Except Fault α) (s : VMState) (k : α → StepResult) : StepResult :=
  match e with
  | .error f => .faulted f s
  | .ok a => k a

/-- Source `VM._arg_a`: `self._memory[self._ip+1]`. -/
def arg_a (s : VMState) : Except Fault Nat := memRead s (s.ip + 1)

/-- Source `VM._arg_b`: `self._memory[self._ip+2]`. -/
def arg_b (s : VMState) : Except Fault Nat := memRead s (s.ip + 2)

/-- Source `VM._arg_c`: `self._memory[self._ip+3]`. -/
def arg_c (s : VMState) : Except Fault Nat := memRead s (s.ip + 3)

/-- Source `(b + c) % 32768` where `b + c` is numpy uint16 addition (wraps mod
65536) and `%` then reduces mod 32768. -/
def addResult (b c : Nat) : Nat := ((b + c) % 65536) % 32768

/-- Source `np.uint16((int(b) * int(c)) % 32768)`: the product is taken in unbounded
Python integers before the reduction. -/
def multResult (b c : Nat) : Nat := (b * c) % 32768

/-- Source `b % c` on numpy uint16 scalars: for `c = 0` numpy emits a
`RuntimeWarning` and yields 0 instead of raising. -/
def modResult (b c : Nat) : Nat := if c = 0 then 0 else b % c

/-- Source `1 if b == c else 0`. -/
def eqResult (b c : Nat) : Nat := if b = c then 1 else 0

/-- Source `1 if b > c else 0`. -/
def gtResult (b c : Nat) : Nat := if c < b then 1 else 0

/-- Source `VM._halt`: advance ip once, then return `False` so the run loop stops. -/
def op_halt (s : VMState) : StepResult :=
  orFault (inc_ip s 1) s fun s1 => .halted s1

/-- Source `VM._set`: read raw operands `a` and `b`, store the *raw* word `b` at
destination `a` (the source never passes `b` through `load_value`), advance
ip by 3. -/
def op_set (s : VMState) : StepResult :=
  orFault (arg_a s) s fun a =>
  orFault (arg_b s) s fun b =>
  orFault (store_value s b a) s fun s1 =>
  orFault (inc_ip s1 3) s1 fun s2 => .running s2

/-- Source `VM._push`: resolve operand `a`, append the value to the stack, advance
ip by 2. -/
def op_push (s : VMState) : StepResult :=
  orFault (arg_a s) s fun a =>
  orFault (load_value s a) s fun v =>
  orFault (inc_ip { s with stack := v :: s.stack } 2)
    { s with stack := v :: s.stack } fun s2 => .running s2

/-- Source `VM._pop`: on an empty stack raise `RuntimeError`; otherwise read the
destination operand, pop, store through `store_value`, advance ip by 2. -/
def op_pop (s : VMState) : StepResult :=
  match s.stack with
  | [] => .faulted .StackUnderflow s
  | v :: rest =>
    orFault (arg_a s) s fun a =>
    orFault (store_value { s with stack := rest } v a)
      { s with stack := rest } fun s1 =>
    orFault (inc_ip s1 2) s1 fun s2 => .running s2

/-- Common shape of `_eq`/`_gt`/`_add`/`_mult`/`_mod`/`_and`/`_or`: read the
destination word, resolve operands `b` and `c`, store `f b c`, advance ip
by 4. -/
def binop (s : VMState) (f : Nat → Nat → Nat) : StepResult :=
  orFault (arg_a s) s fun a =>
  orFault (arg_b s) s fun braw =>
  orFault (load_value s braw) s fun b =>
  orFault (arg_c s) s fun craw =>
  orFault (load_value s craw) s fun c =>
  orFault (store_value s (f b c) a) s fun s1 =>
  orFault (inc_ip s1 4) s1 fun s2 => .running s2

def op_eq (s : VMState) : StepResult := binop s eqResult

def op_gt (s : VMState) : StepResult := binop s gtResult

/-- Source `VM._jmp`: resolve operand `a` and assign it to ip through `set_ip`. -/
def op_jmp (s : VMState) : StepResult :=
  orFault (arg_a s) s fun a =>
  orFault (load_value s a) s fun v =>
  orFault (set_ip s v) s fun s1 => .running s1

/-- Source `VM._jt`: if the resolved first operand is nonzero jump to the resolved
second operand, otherwise advance ip by 3. -/
def op_jt (s : VMState) : StepResult :=
  orFault (arg_a s) s fun a =>
  orFault (load_value s a) s fun va =>
  if va ≠ 0 then
    orFault (arg_b s) s fun b =>
    orFault (load_value s b) s fun vb =>
    orFault (set_ip s vb) s fun s1 => .running s1
  else
    orFault (inc_ip s 3) s fun s1 => .running s1

/-- Source `VM._jf`: if the resolved first operand is zero jump to the resolved
second operand, otherwise advance ip by 3. -/
def op_jf (s : VMState) : StepResult :=
  orFault (arg_a s) s fun a =>
  orFault (load_value s a) s fun va =>
  if va = 0 then
    orFault (arg_b s) s fun b =>
    orFault (load_value s b) s fun vb =>
    orFault (set_ip s vb) s fun s1 => .running s1
  else
    orFault (inc_ip s 3) s fun s1 => .running s1

def op_add (s : VMState) : StepResult := binop s addResult

def op_mult (s : VMState) : StepResult := binop s multResult

def op_mod (s : VMState) : StepResult := binop s modResult

def op_and (s : VMState) : StepResult := binop s Nat.land

def op_or (s : VMState) : StepResult := binop s Nat.lor

/-- Source `VM._not`: store the 15-bit complement `b xor MAX_LITERAL`, advance ip
by 3. -/
def op_not (s : VMState) : StepResult :=
  orFault (arg_a s) s fun a =>
  orFault (arg_b s) s fun braw =>
  orFault (load_value s braw) s fun b =>
  orFault (store_value s (Nat.xor b MAX_LITERAL) a) s fun s1 =>
  orFault (inc_ip s1 3) s1 fun s2 => .running s2

/-- Source `VM._rmem`: store the memory word at resolved address `b` into
destination `a`, advance ip by 3. -/
def op_rmem (s : VMState) : StepResult :=
  orFault (arg_a s) s fun a =>
  orFault (arg_b s) s fun braw =>
  orFault (load_value s braw) s fun b =>
  orFault (memRead s b) s fun v =>
  orFault (store_value s v a) s fun s1 =>
  orFault (inc_ip s1 3) s1 fun s2 => .running s2

/-- Source `VM._wmem`: write resolved `b` directly into `self._memory` at resolved
address `a`, advance ip by 3. -/
def op_wmem (s : VMState) : StepResult :=
  orFault (arg_a s) s fun araw =>
  orFault (load_value s araw) s fun a =>
  orFault (arg_b s) s fun braw =>
  orFault (load_value s braw) s fun b =>
  orFault (memWrite s a b) s fun s1 =>
  orFault (inc_ip s1 3) s1 fun s2 => .running s2

/-- Tail of `VM._call` after the return address has been appended: read the
raw operand, resolve it, assign it to ip through `set_ip`. -/
def callResolve (s1 : VMState) : StepResult :=
  orFault (arg_a s1) s1 fun a =>
  orFault (load_value s1 a) s1 fun v =>
  orFault (set_ip s1 v) s1 fun s2 => .running s2

/-- Source `VM._call`: append `ip + 2` to the stack *first*, then resolve operand
`a` and assign it to ip through `set_ip`. -/
def op_call (s : VMState) : StepResult :=
  callResolve { s with stack := (s.ip + 2) :: s.stack }

/-- Tail of `VM._ret` after the top of the stack has been popped: assign the
popped word to ip through `set_ip`. -/
def retTo (s1 : VMState) (v : Nat) : StepResult :=
  orFault (set_ip s1 v) s1 fun s2 => .running s2

/-- Source `VM._ret`: on an empty stack return `False` (the run loop stops without
a fault); otherwise pop the top word and assign it to ip through `set_ip`. -/
def op_ret (s : VMState) : StepResult :=
  match s.stack with
  | [] => .halted s
  | v :: rest => retTo { s with stack := rest } v

/-- Source `VM._out`: resolve operand `a`, emit the character code, advance ip by
2. -/
def op_out (s : VMState) : StepResult :=
  orFault (arg_a s) s fun a =>
  orFault (load_value s a) s fun v =>
  orFault (inc_ip { s with output := s.output ++ [v] } 2)
    { s with output := s.output ++ [v] } fun s2 => .running s2

/-- Source `VM._noop`: advance ip once. -/
def op_noop (s : VMState) : StepResult :=
  orFault (inc_ip s 1) s fun s1 => .running s1

/-- The `VM.OPCODES` dispatch dict.  `OpCode.IN` is commented out in the
source, so looking it up raises `KeyError`; here it maps to `none`. -/
def OPCODES : OpCode → Option (VMState → StepResult)
  | .HALT => some op_halt
  | .SET => some op_set
  | .PUSH => some op_push
  | .POP => some op_pop
  | .EQ => some op_eq
  | .GT => some op_gt
  | .JMP => some op_jmp
  | .JT => some op_jt
  | .JF => some op_jf
  | .ADD => some op_add
  | .MULT => some op_mult
  | .MOD => some op_mod
  | .AND => some op_and
  | .OR => some op_or
  | .NOT => some op_not
  | .RMEM => some op_rmem
  | .WMEM => some op_wmem
  | .CALL => some op_call
  | .RET => some op_ret
  | .OUT => some op_out
  | .IN => none
  | .NOOP => some op_noop

/-- Source `OpCode(word)`: the `IntEnum` conversion succeeds exactly on the 22
values 0..21 and raises `ValueError` otherwise. -/
def decode (w : Nat) : Option OpCode :=
  if w = 0 then some .HALT
  else if w = 1 then some .SET
  else if w = 2 then some .PUSH
  else if w = 3 then some .POP
  else if w = 4 then some .EQ
  else if w = 5 then some .GT
  else if w = 6 then some .JMP
  else if w = 7 then some .JT
  else if w = 8 then some .JF
  else if w = 9 then some .ADD
  else if w = 10 then some .MULT
  else if w = 11 then some .MOD
  else if w = 12 then some .AND
  else if w = 13 then some .OR
  else if w = 14 then some .NOT
  else if w = 15 then some .RMEM
  else if w = 16 then some .WMEM
  else if w = 17 then some .CALL
  else if w = 18 then some .RET
  else if w = 19 then some .OUT
  else if w = 20 then some .IN
  else if w = 21 then some .NOOP
  else none

/-- Decode the fetched word and dispatch through `OPCODES`. -/
def stepOp (w : Nat) (s : VMState) : StepResult :=
  match decode w with
  | none => .faulted .IllegalOpcode s
  | some op =>
    match OPCODES op with
    | none => .faulted .MissingHandler s
    | some h => h s

/-- One iteration of the `VM.run` loop: fetch the word at ip, decode,
dispatch. -/
def step (s : VMState) : StepResult :=
  orFault (memRead s s.ip) s fun w => stepOp w s

/-- Iterate `step` while the result keeps running, up to `fuel` cycles. -/
def runVM : Nat → VMState → StepResult
  | 0, s => .running s
  | fuel + 1, s =>
    match step s with
    | .running s1 => runVM fuel s1
    | r => r

/-- Source `VM.__init__` with a program: zero-filled memory and registers, the
program copied in from address 0, empty stack, ip 0. -/
def loadProgram (program : List Nat) : VMState :=
  { memory := fun i => program.getD i 0 % 65536
    registers := fun _ => 0
    stack := []
    ip := 0
    output := [] }

/-- States reachable from a freshly constructed VM by running cycles. -/
inductive Reachable (program : List Nat) : VMState → Prop
  | init : Reachable program (loadProgram program)
  | next {s s1 : VMState} : Reachable program s → step s = .running s1 →
      Reachable program s1

/-- Concrete CALL demonstration program: CALL 4 at address 0, HALT at the
return address 2, RET at address 4. -/
def callProgState : VMState := loadProgram [17, 4, 0, 0, 18]

/-- The state of `callProgState` after the CALL transferred to the RET. -/
def callRetState : VMState := { callProgState with ip := 4, stack := [2] }

/-- An empty-stack state about to execute RET. -/
def retEmptyState : VMState := loadProgram [18, 0]

/-- An empty-stack state about to execute POP. -/
def popEmptyState : VMState := loadProgram [3, 0]

/-- State with register 1 holding 7, for the read-after-write witness. -/
def regStoreState : VMState :=
  { loadProgram [] with registers := updFn (loadProgram []).registers 1 7 }

/-- Program whose single SET instruction names register 1 (word 32769) as its
read operand. -/
def setRawState : VMState := loadProgram [1, 32768, 32769]

/-- Program consisting of one IN instruction. -/
def inProgState : VMState := loadProgram [20, 0]

/-- Program whose CALL operand 40000 is beyond `MAX_REGISTER`. -/
def callBadState : VMState := loadProgram [17, 40000]

/-- The MOD-by-zero scenario program from the design document. -/
def modZeroState : VMState := loadProgram [11, 32768, 5, 0, 0]

/-- ADD instruction state for the arithmetic witness. -/
def addProgState : VMState := loadProgram [9, 32768, 30000, 30000, 0]

/-- MULT instruction state for the arithmetic witness. -/
def multProgState : VMState := loadProgram [10, 32768, 30000, 30000, 0]

/-- A state whose fetched word 22 is no opcode. -/
def badOpState : VMState := loadProgram [22, 0]

theorem memRead_ok (s : VMState) (idx : Nat) (h : idx < MEM_SIZE) :
    memRead s idx = .ok (s.memory idx) := by
  unfold memRead
  rw [if_pos h]

theorem set_ip_ok_lt {s : VMState} {t : Nat} {s1 : VMState}
    (h : set_ip s t = .ok s1) : s1.ip < MEM_SIZE := by
  unfold set_ip at h
  split at h
  next h1 => cases h; exact h1
  next h1 => simp at h

theorem set_ip_err (s : VMState) (t : Nat) (h : MEM_SIZE ≤ t) :
    set_ip s t = .error .IpOutOfRange := by
  unfold set_ip
  rw [if_neg (by omega)]

theorem store_value_ip {s : VMState} {v a : Nat} {s1 : VMState}
    (h : store_value s v a = .ok s1) : s1.ip = s.ip := by
  unfold store_value at h
  split at h
  next => cases h; rfl
  next =>
    split at h
    next => cases h; rfl
    next => simp at h

theorem memWrite_ip {s : VMState} {idx v : Nat} {s1 : VMState}
    (h : memWrite s idx v = .ok s1) : s1.ip = s.ip := by
  unfold memWrite at h
  split at h
  next => cases h; rfl
  next => simp at h

theorem orFault_ip {α : Type} (e : Except Fault α) (s : VMState)
    (k : α → StepResult) (hs : s.ip < MEM_SIZE)
    (hk : ∀ a, e = .ok a → (k a).stateOf.ip < MEM_SIZE) :
    (orFault e s k).stateOf.ip < MEM_SIZE := by
  cases e with
  | error f => exact hs
  | ok a => exact hk a rfl

theorem decode_gt (w : Nat) (h : 21 < w) : decode w = none := by
  have e0 : ¬ (w = 0) := by omega
  have e1 : ¬ (w = 1) := by omega
  have e2 : ¬ (w = 2) := by omega
  have e3 : ¬ (w = 3) := by omega
  have e4 : ¬ (w = 4) := by omega
  have e5 : ¬ (w = 5) := by omega
  have e6 : ¬ (w = 6) := by omega
  have e7 : ¬ (w = 7) := by omega
  have e8 : ¬ (w = 8) := by omega
  have e9 : ¬ (w = 9) := by omega
  have e10 : ¬ (w = 10) := by omega
  have e11 : ¬ (w = 11) := by omega
  have e12 : ¬ (w = 12) := by omega
  have e13 : ¬ (w = 13) := by omega
  have e14 : ¬ (w = 14) := by omega
  have e15 : ¬ (w = 15) := by omega
  have e16 : ¬ (w = 16) := by omega
  have e17 : ¬ (w = 17) := by omega
  have e18 : ¬ (w = 18) := by omega
  have e19 : ¬ (w = 19) := by omega
  have e20 : ¬ (w = 20) := by omega
  have e21 : ¬ (w = 21) := by omega
  unfold decode
  rw [if_neg e0, if_neg e1, if_neg e2, if_neg e3, if_neg e4, if_neg e5,
    if_neg e6, if_neg e7, if_neg e8, if_neg e9, if_neg e10, if_neg e11,
    if_neg e12, if_neg e13, if_neg e14, if_neg e15, if_neg e16, if_neg e17,
    if_neg e18, if_neg e19, if_neg e20, if_neg e21]

theorem op_halt_ip (s : VMState) (h : s.ip < MEM_SIZE) :
    (op_halt s).stateOf.ip < MEM_SIZE := by
  unfold op_halt
  refine orFault_ip _ _ _ h fun s1 hs1 => ?_
  exact set_ip_ok_lt (show set_ip s (s.ip + 1) = .ok s1 from hs1)

theorem op_set_ip (s : VMState) (h : s.ip < MEM_SIZE) :
    (op_set s).stateOf.ip < MEM_SIZE := by
  unfold op_set
  refine orFault_ip _ _ _ h fun a ha => ?_
  refine orFault_ip _ _ _ h fun b hb => ?_
  refine orFault_ip _ _ _ h fun s1 hs1 => ?_
  have h1 : s1.ip < MEM_SIZE := by rw [store_value_ip hs1]; exact h
  refine orFault_ip _ _ _ h1 fun s2 hs2 => ?_
  exact set_ip_ok_lt (show set_ip s1 (s1.ip + 3) = .ok s2 from hs2)

theorem op_push_ip (s : VMState) (h : s.ip < MEM_SIZE) :
    (op_push s).stateOf.ip < MEM_SIZE := by
  unfold op_push
  refine orFault_ip _ _ _ h fun a ha => ?_
  refine orFault_ip _ _ _ h fun v hv => ?_
  refine orFault_ip _ _ _ h fun s2 hs2 => ?_
  exact set_ip_ok_lt hs2

theorem op_pop_ip (s : VMState) (h : s.ip < MEM_SIZE) :
    (op_pop s).stateOf.ip < MEM_SIZE := by
  unfold op_pop
  cases hst : s.stack with
  | nil => exact h
  | cons v rest =>
    refine orFault_ip _ _ _ h fun a ha => ?_
    refine orFault_ip _ _ _ h fun s1 hs1 => ?_
    have h1 : s1.ip < MEM_SIZE := by rw [store_value_ip hs1]; exact h
    refine orFault_ip _ _ _ h1 fun s2 hs2 => ?_
    exact set_ip_ok_lt (show set_ip s1 (s1.ip + 2) = .ok s2 from hs2)

theorem binop_ip (s : VMState) (f : Nat → Nat → Nat) (h : s.ip < MEM_SIZE) :
    (binop s f).stateOf.ip < MEM_SIZE := by
  unfold binop
  refine orFault_ip _ _ _ h fun a ha => ?_
  refine orFault_ip _ _ _ h fun braw hbr => ?_
  refine orFault_ip _ _ _ h fun b hb => ?_
  refine orFault_ip _ _ _ h fun craw hcr => ?_
  refine orFault_ip _ _ _ h fun c hc => ?_
  refine orFault_ip _ _ _ h fun s1 hs1 => ?_
  have h1 : s1.ip < MEM_SIZE := by rw [store_value_ip hs1]; exact h
  refine orFault_ip _ _ _ h1 fun s2 hs2 => ?_
  exact set_ip_ok_lt (show set_ip s1 (s1.ip + 4) = .ok s2 from hs2)

theorem op_jmp_ip (s : VMState) (h : s.ip < MEM_SIZE) :
    (op_jmp s).stateOf.ip < MEM_SIZE := by
  unfold op_jmp
  refine orFault_ip _ _ _ h fun a ha => ?_
  refine orFault_ip _ _ _ h fun v hv => ?_
  refine orFault_ip _ _ _ h fun s1 hs1 => ?_
  exact set_ip_ok_lt hs1

theorem op_jt_ip (s : VMState) (h : s.ip < MEM_SIZE) :
    (op_jt s).stateOf.ip < MEM_SIZE := by
  unfold op_jt
  refine orFault_ip _ _ _ h fun a ha => ?_
  refine orFault_ip _ _ _ h fun va hva => ?_
  split
  · refine orFault_ip _ _ _ h fun b hb => ?_
    refine orFault_ip _ _ _ h fun vb hvb => ?_
    refine orFault_ip _ _ _ h fun s1 hs1 => ?_
    exact set_ip_ok_lt hs1
  · refine orFault_ip _ _ _ h fun s1 hs1 => ?_
    exact set_ip_ok_lt (show set_ip s (s.ip + 3) = .ok s1 from hs1)

theorem op_jf_ip (s : VMState) (h : s.ip < MEM_SIZE) :
    (op_jf s).stateOf.ip < MEM_SIZE := by
  unfold op_jf
  refine orFault_ip _ _ _ h fun a ha => ?_
  refine orFault_ip _ _ _ h fun va hva => ?_
  split
  · refine orFault_ip _ _ _ h fun b hb => ?_
    refine orFault_ip _ _ _ h fun vb hvb => ?_
    refine orFault_ip _ _ _ h fun s1 hs1 => ?_
    exact set_ip_ok_lt hs1
  · refine orFault_ip _ _ _ h fun s1 hs1 => ?_
    exact set_ip_ok_lt (show set_ip s (s.ip + 3) = .ok s1 from hs1)

theorem op_not_ip (s : VMState) (h : s.ip < MEM_SIZE) :
    (op_not s).stateOf.ip < MEM_SIZE := by
  unfold op_not
  refine orFault_ip _ _ _ h fun a ha => ?_
  refine orFault_ip _ _ _ h fun braw hbr => ?_
  refine orFault_ip _ _ _ h fun b hb => ?_
  refine orFault_ip _ _ _ h fun s1 hs1 => ?_
  have h1 : s1.ip < MEM_SIZE := by rw [store_value_ip hs1]; exact h
  refine orFault_ip _ _ _ h1 fun s2 hs2 => ?_
  exact set_ip_ok_lt (show set_ip s1 (s1.ip + 3) = .ok s2 from hs2)

theorem op_rmem_ip (s : VMState) (h : s.ip < MEM_SIZE) :
    (op_rmem s).stateOf.ip < MEM_SIZE := by
  unfold op_rmem
  refine orFault_ip _ _ _ h fun a ha => ?_
  refine orFault_ip _ _ _ h fun braw hbr => ?_
  refine orFault_ip _ _ _ h fun b hb => ?_
  refine orFault_ip _ _ _ h fun v hv => ?_
  refine orFault_ip _ _ _ h fun s1 hs1 => ?_
  have h1 : s1.ip < MEM_SIZE := by rw [store_value_ip hs1]; exact h
  refine orFault_ip _ _ _ h1 fun s2 hs2 => ?_
  exact set_ip_ok_lt (show set_ip s1 (s1.ip + 3) = .ok s2 from hs2)

theorem op_wmem_ip (s : VMState) (h : s.ip < MEM_SIZE) :
    (op_wmem s).stateOf.ip < MEM_SIZE := by
  unfold op_wmem
  refine orFault_ip _ _ _ h fun araw har => ?_
  refine orFault_ip _ _ _ h fun a ha => ?_
  refine orFault_ip _ _ _ h fun braw hbr => ?_
  refine orFault_ip _ _ _ h fun b hb => ?_
  refine orFault_ip _ _ _ h fun s1 hs1 => ?_
  have h1 : s1.ip < MEM_SIZE := by rw [memWrite_ip hs1]; exact h
  refine orFault_ip _ _ _ h1 fun s2 hs2 => ?_
  exact set_ip_ok_lt (show set_ip s1 (s1.ip + 3) = .ok s2 from hs2)

theorem callResolve_ip (s1 : VMState) (h : s1.ip < MEM_SIZE) :
    (callResolve s1).stateOf.ip < MEM_SIZE := by
  unfold callResolve
  refine orFault_ip _ _ _ h fun a ha => ?_
  refine orFault_ip _ _ _ h fun v hv => ?_
  refine orFault_ip _ _ _ h fun s2 hs2 => ?_
  exact set_ip_ok_lt hs2

theorem op_call_ip (s : VMState) (h : s.ip < MEM_SIZE) :
    (op_call s).stateOf.ip < MEM_SIZE := by
  unfold op_call
  exact callResolve_ip _ h

theorem retTo_ip (s1 : VMState) (v : Nat) (h : s1.ip < MEM_SIZE) :
    (retTo s1 v).stateOf.ip < MEM_SIZE := by
  unfold retTo
  refine orFault_ip _ _ _ h fun s2 hs2 => ?_
  exact set_ip_ok_lt hs2

theorem op_ret_ip (s : VMState) (h : s.ip < MEM_SIZE) :
    (op_ret s).stateOf.ip < MEM_SIZE := by
  unfold op_ret
  cases hst : s.stack with
  | nil => exact h
  | cons v rest => exact retTo_ip _ v h

theorem op_out_ip (s : VMState) (h : s.ip < MEM_SIZE) :
    (op_out s).stateOf.ip < MEM_SIZE := by
  unfold op_out
  refine orFault_ip _ _ _ h fun a ha => ?_
  refine orFault_ip _ _ _ h fun v hv => ?_
  refine orFault_ip _ _ _ h fun s2 hs2 => ?_
  exact set_ip_ok_lt hs2

theorem op_noop_ip (s : VMState) (h : s.ip < MEM_SIZE) :
    (op_noop s).stateOf.ip < MEM_SIZE := by
  unfold op_noop
  refine orFault_ip _ _ _ h fun s1 hs1 => ?_
  exact set_ip_ok_lt (show set_ip s (s.ip + 1) = .ok s1 from hs1)

theorem step_stateOf_ip (s : VMState) (h : s.ip < MEM_SIZE) :
    (step s).stateOf.ip < MEM_SIZE := by
  unfold step
  refine orFault_ip _ _ _ h fun w hw => ?_
  unfold stepOp
  cases hd : decode w with
  | none => exact h
  | some op =>
    cases op
    case HALT => exact op_halt_ip s h
    case SET => exact op_set_ip s h
    case PUSH => exact op_push_ip s h
    case POP => exact op_pop_ip s h
    case EQ => exact binop_ip s eqResult h
    case GT => exact binop_ip s gtResult h
    case JMP => exact op_jmp_ip s h
    case JT => exact op_jt_ip s h
    case JF => exact op_jf_ip s h
    case ADD => exact binop_ip s addResult h
    case MULT => exact binop_ip s multResult h
    case MOD => exact binop_ip s modResult h
    case AND => exact binop_ip s Nat.land h
    case OR => exact binop_ip s Nat.lor h
    case NOT => exact op_not_ip s h
    case RMEM => exact op_rmem_ip s h
    case WMEM => exact op_wmem_ip s h
    case CALL => exact op_call_ip s h
    case RET => exact op_ret_ip s h
    case OUT => exact op_out_ip s h
    case IN => exact h
    case NOOP => exact op_noop_ip s h

theorem binop_exec (s : VMState) (f : Nat → Nat → Nat) (b c : Nat)
    (h4 : s.ip + 4 < MEM_SIZE)
    (hb : load_value s (s.memory (s.ip + 2)) = .ok b)
    (hc : load_value s (s.memory (s.ip + 3)) = .ok c)
    (ha : s.memory (s.ip + 1) ≤ MAX_REGISTER) :
    (binop s f).isRunning = true ∧ (binop s f).stateOf.ip = s.ip + 4 ∧
    stored_at (binop s f).stateOf (s.memory (s.ip + 1)) = f b c % 65536 := by
  have h1 : s.ip + 1 < MEM_SIZE := by omega
  have h2 : s.ip + 2 < MEM_SIZE := by omega
  have h3 : s.ip + 3 < MEM_SIZE := by omega
  unfold binop arg_a arg_b arg_c
  rw [memRead_ok s (s.ip + 1) h1]
  simp only [orFault]
  rw [memRead_ok s (s.ip + 2) h2]
  simp only [orFault]
  rw [hb]
  simp only [orFault]
  rw [memRead_ok s (s.ip + 3) h3]
  simp only [orFault]
  rw [hc]
  simp only [orFault]
  by_cases ham : s.memory (s.ip + 1) < MEM_SIZE
  · rw [show store_value s (f b c) (s.memory (s.ip + 1)) =
        .ok { s with memory := updFn s.memory (s.memory (s.ip + 1)) (f b c % 65536) } by
      unfold store_value; rw [if_pos ham]]
    simp only [orFault]
    rw [show inc_ip { s with memory := updFn s.memory (s.memory (s.ip + 1)) (f b c % 65536) } 4 =
        .ok { s with
          memory := updFn s.memory (s.memory (s.ip + 1)) (f b c % 65536),
          ip := s.ip + 4 } by
      unfold inc_ip set_ip; rw [if_pos (by exact h4)]]
    simp only [orFault]
    refine ⟨rfl, rfl, ?_⟩
    unfold stored_at
    rw [if_pos ham]
    simp [StepResult.stateOf, updFn]
  · rw [show store_value s (f b c) (s.memory (s.ip + 1)) =
        .ok { s with registers := updFn s.registers (s.memory (s.ip + 1) - 32768) (f b c % 65536) } by
      unfold store_value; rw [if_neg ham, if_pos ha]]
    simp only [orFault]
    rw [show inc_ip { s with registers := updFn s.registers (s.memory (s.ip + 1) - 32768) (f b c % 65536) } 4 =
        .ok { s with
          registers := updFn s.registers (s.memory (s.ip + 1) - 32768) (f b c % 65536),
          ip := s.ip + 4 } by
      unfold inc_ip set_ip; rw [if_pos (by exact h4)]]
    simp only [orFault]
    refine ⟨rfl, rfl, ?_⟩
    unfold stored_at
    rw [if_neg ham]
    simp [StepResult.stateOf, updFn]

theorem reachable_ip (program : List Nat) (s : VMState)
    (h : Reachable program s) : s.ip < MEM_SIZE := by
  induction h with
  | init =>
    show (0 : Nat) < MEM_SIZE
    decide
  | next hr hstep ih =>
    rename_i s0 s1
    have := step_stateOf_ip s0 ih
    rw [hstep] at this
    exact this

theorem callResolve_ok (s1 : VMState) (v : Nat) (h1 : s1.ip + 1 < MEM_SIZE)
    (hv : load_value s1 (s1.memory (s1.ip + 1)) = .ok v) (hvlt : v < MEM_SIZE) :
    callResolve s1 = .running { s1 with ip := v } := by
  unfold callResolve arg_a
  rw [memRead_ok s1 (s1.ip + 1) h1]
  simp only [orFault]
  rw [hv]
  simp only [orFault]
  rw [show set_ip s1 v = .ok { s1 with ip := v } by unfold set_ip; rw [if_pos hvlt]]

theorem callResolve_badop (s1 : VMState) (h1 : s1.ip + 1 < MEM_SIZE)
    (hbad : MAX_REGISTER < s1.memory (s1.ip + 1)) :
    callResolve s1 = .faulted .InvalidOperand s1 := by
  unfold callResolve arg_a
  rw [memRead_ok s1 (s1.ip + 1) h1]
  simp only [orFault]
  have hn1 : ¬ (s1.memory (s1.ip + 1) ≤ MAX_LITERAL) := by
    simp only [MAX_LITERAL, MAX_REGISTER] at *; omega
  have hn2 : ¬ (s1.memory (s1.ip + 1) ≤ MAX_REGISTER) := by omega
  rw [show load_value s1 (s1.memory (s1.ip + 1)) = .error .InvalidOperand by
    unfold load_value; rw [if_neg hn1, if_neg hn2]]

theorem retTo_ok (s1 : VMState) (v : Nat) (h : v < MEM_SIZE) :
    retTo s1 v = .running { s1 with ip := v } := by
  unfold retTo
  rw [show set_ip s1 v = .ok { s1 with ip := v } by unfold set_ip; rw [if_pos h]]
  rfl

/-- C1: the claim says one step of a SET instruction stores `resolve(b)` into
destination `a`.  The code (`VM._set`) instead passes the raw operand word `b`
to `store_value` without resolving it: on the program `[1, 32768, 32769]`
(SET with destination register 0 and operand word 32769, an alias of register
1 whose current value is 0) the step stores the raw word 32769 into register
0, although `resolve(32769)` is 0; the ip does advance by 3. -/
theorem c1_set_stores_raw_operand :
    (step setRawState).isRunning = true ∧
    (step setRawState).stateOf.registers 0 = 32769 ∧
    load_value setRawState 32769 = .ok 0 ∧
    (step setRawState).stateOf.ip = 3 :=
  ⟨by decide, by decide, rfl, by decide⟩

/-- C2: for every state with an empty stack (ip readable), executing RET
halts the VM normally (terminal `halted`, state unchanged), while executing
POP faults with `StackUnderflow`; the two empty-stack behaviours are
distinct. -/
theorem c2_ret_pop_empty_stack (s : VMState) (h0 : s.ip < MEM_SIZE)
    (hstk : s.stack = []) :
    (s.memory s.ip = 18 → step s = .halted s) ∧
    (s.memory s.ip = 3 → step s = .faulted .StackUnderflow s) := by
  constructor
  · intro hw
    unfold step
    rw [memRead_ok s s.ip h0, hw]
    show op_ret s = .halted s
    unfold op_ret
    rw [hstk]
  · intro hw
    unfold step
    rw [memRead_ok s s.ip h0, hw]
    show op_pop s = .faulted .StackUnderflow s
    unfold op_pop
    rw [hstk]

theorem c2_ret_pop_empty_stack_witness :
    step retEmptyState = .halted retEmptyState ∧
    step popEmptyState = .faulted .StackUnderflow popEmptyState :=
  ⟨(c2_ret_pop_empty_stack retEmptyState (by decide) rfl).1 rfl,
   (c2_ret_pop_empty_stack popEmptyState (by decide) rfl).2 rfl⟩

/-- C3 counterexample: on the scenario program `[11, 32768, 5, 0, 0]` the MOD
instruction with resolved divisor 0 does NOT fault: the step keeps running,
and the whole run terminates `halted` with no fault and register 0 = 0
(numpy uint16 remainder by zero yields 0 with only a host-level warning). -/
theorem c3_mod_zero_counterexample :
    (step modZeroState).isRunning = true ∧
    (runVM 5 modZeroState).isHalted = true ∧
    (runVM 5 modZeroState).faultOf = none ∧
    (runVM 5 modZeroState).stateOf.registers 0 = 0 :=
  ⟨by decide, by decide, by decide, by decide⟩

/-- C3 amended: executing a MOD instruction whose resolved third operand is 0
(with the instruction words readable, the destination a valid store target,
and the advanced ip in range) stores 0 into the destination and keeps the VM
running with ip advanced by 4 — it does not transition to
`Faulted(DivideByZero)`. -/
theorem c3_mod_zero_stores_zero (s : VMState) (b : Nat)
    (h4 : s.ip + 4 < MEM_SIZE) (hw : s.memory s.ip = 11)
    (hb : load_value s (s.memory (s.ip + 2)) = .ok b)
    (hc : load_value s (s.memory (s.ip + 3)) = .ok 0)
    (ha : s.memory (s.ip + 1) ≤ MAX_REGISTER) :
    (step s).isRunning = true ∧ (step s).stateOf.ip = s.ip + 4 ∧
    stored_at (step s).stateOf (s.memory (s.ip + 1)) = 0 := by
  have h0 : s.ip < MEM_SIZE := by omega
  have hs : step s = binop s modResult := by
    unfold step
    rw [memRead_ok s s.ip h0, hw]
    rfl
  rw [hs]
  have h := binop_exec s modResult b 0 h4 hb hc ha
  simpa [modResult] using h

theorem c3_mod_zero_stores_zero_witness :
    (step modZeroState).isRunning = true ∧
    (step modZeroState).stateOf.ip = modZeroState.ip + 4 ∧
    stored_at (step modZeroState).stateOf
      (modZeroState.memory (modZeroState.ip + 1)) = 0 :=
  c3_mod_zero_stores_zero modZeroState 5 (by decide) rfl rfl rfl (by decide)

/-- C4: the claim says one step of an IN instruction consumes an input
character, stores its code at the destination, and advances ip by 2.  The
code cannot do this: `OpCode.IN` is commented out of the `OPCODES` dispatch
dict, so dispatch raises `KeyError` (here `Faulted MissingHandler` with the
state unchanged — nothing is consumed, stored, or advanced), and the `_in`
handler is an unreachable stub. -/
theorem c4_in_is_unimplemented :
    step inProgState = .faulted .MissingHandler inProgState ∧
    OPCODES OpCode.IN = none :=
  ⟨rfl, rfl⟩

/-- C5: for every state whose (readable) fetched word is not one of the 22
defined opcode values 0..21, one step faults with `IllegalOpcode`, leaving
the state unchanged — the VM neither guesses nor skips. -/
theorem c5_illegal_opcode_faults (s : VMState) (h0 : s.ip < MEM_SIZE)
    (hw : 21 < s.memory s.ip) :
    step s = .faulted .IllegalOpcode s := by
  unfold step
  rw [memRead_ok s s.ip h0]
  show stepOp (s.memory s.ip) s = _
  unfold stepOp
  rw [decode_gt (s.memory s.ip) hw]

theorem c5_illegal_opcode_faults_witness :
    step badOpState = .faulted .IllegalOpcode badOpState :=
  c5_illegal_opcode_faults badOpState (by decide) (by decide)

/-- C6: `load_value` returns `v` itself for `v ≤ 32767`, the current contents
of register `v - 32768` for `32768 ≤ v ≤ 32775`, and fails with
`InvalidOperand` for larger `v`; and immediately after `store_value` writes
`x` to register `r` (via its alias `32768 + r`), resolving that alias yields
`x` back (read-after-write). -/
theorem c6_resolve_semantics (s s1 : VMState) (v x r : Nat) :
    (v ≤ MAX_LITERAL → load_value s v = .ok v) ∧
    (32768 ≤ v → v ≤ MAX_REGISTER → load_value s v = .ok (s.registers (v - 32768))) ∧
    (MAX_REGISTER < v → load_value s v = .error .InvalidOperand) ∧
    (r < REG_COUNT → x < 65536 → store_value s x (32768 + r) = .ok s1 →
      load_value s1 (32768 + r) = .ok x) := by
  refine ⟨?_, ?_, ?_, ?_⟩
  · intro h
    unfold load_value
    rw [if_pos h]
  · intro ha hb
    have hn : ¬ (v ≤ MAX_LITERAL) := by simp only [MAX_LITERAL] at *; omega
    unfold load_value
    rw [if_neg hn, if_pos hb]
  · intro h
    have hn1 : ¬ (v ≤ MAX_LITERAL) := by
      simp only [MAX_LITERAL, MAX_REGISTER] at *; omega
    have hn2 : ¬ (v ≤ MAX_REGISTER) := by omega
    unfold load_value
    rw [if_neg hn1, if_neg hn2]
  · intro hr hx hst
    have hn1 : ¬ (32768 + r < MEM_SIZE) := by simp only [MEM_SIZE]; omega
    have hp : 32768 + r ≤ MAX_REGISTER := by
      simp only [REG_COUNT] at hr
      simp only [MAX_REGISTER]
      omega
    unfold store_value at hst
    rw [if_neg hn1, if_pos hp] at hst
    cases hst
    have hn2 : ¬ (32768 + r ≤ MAX_LITERAL) := by simp only [MAX_LITERAL]; omega
    unfold load_value
    rw [if_neg hn2, if_pos hp]
    simp [updFn, Nat.mod_eq_of_lt hx]

theorem c6_resolve_semantics_witness :
    load_value (loadProgram []) 5 = .ok 5 ∧
    load_value (loadProgram []) 32769 = .ok ((loadProgram []).registers 1) ∧
    load_value (loadProgram []) 40000 = .error .InvalidOperand ∧
    load_value regStoreState 32769 = .ok 7 :=
  ⟨(c6_resolve_semantics (loadProgram []) regStoreState 5 7 1).1 (by decide),
   (c6_resolve_semantics (loadProgram []) regStoreState 32769 7 1).2.1
     (by decide) (by decide),
   (c6_resolve_semantics (loadProgram []) regStoreState 40000 7 1).2.2.1
     (by decide),
   (c6_resolve_semantics (loadProgram []) regStoreState 32769 7 1).2.2.2
     (by decide) (by decide) rfl⟩

/-- C7: every reachable state has its instruction pointer in `[0, 32767]`;
`set_ip` — the single gate through which every jump, call, return, or natural
advance assigns the ip — faults `IpOutOfRange` (rather than wrapping) on any
target at or beyond 32768; and one step from any in-range state leaves the
ip of the resulting state in range, whether the step ran, halted, or faulted. -/
theorem c7_ip_always_validated :
    (∀ program s, Reachable program s → s.ip < MEM_SIZE) ∧
    (∀ s t, MEM_SIZE ≤ t → set_ip s t = .error .IpOutOfRange) ∧
    (∀ s, s.ip < MEM_SIZE → (step s).stateOf.ip < MEM_SIZE) :=
  ⟨reachable_ip, set_ip_err, step_stateOf_ip⟩

theorem c7_ip_always_validated_witness :
    (loadProgram []).ip < MEM_SIZE ∧
    set_ip (loadProgram []) 40000 = .error .IpOutOfRange ∧
    (step (loadProgram [])).stateOf.ip < MEM_SIZE :=
  ⟨c7_ip_always_validated.1 [] (loadProgram []) Reachable.init,
   c7_ip_always_validated.2.1 (loadProgram []) 40000 (by decide),
   c7_ip_always_validated.2.2 (loadProgram []) (by decide)⟩

/-- C8: executing CALL at ip (operand readable and resolving to an in-range
target) pushes the return address `ip + 2` onto the stack and sets ip to the
resolved operand; any subsequent RET executed with that return address on top
of the stack resumes exactly at `ip + 2`, popping it. -/
theorem c8_call_ret_roundtrip (s : VMState) (v : Nat)
    (h1 : s.ip + 1 < MEM_SIZE) (hw : s.memory s.ip = 17)
    (hv : load_value s (s.memory (s.ip + 1)) = .ok v) (hvlt : v < MEM_SIZE)
    (h2 : s.ip + 2 < MEM_SIZE) :
    (step s).isRunning = true ∧ (step s).stateOf.ip = v ∧
    (step s).stateOf.stack = (s.ip + 2) :: s.stack ∧
    (∀ t rest, t.ip < MEM_SIZE → t.memory t.ip = 18 →
      t.stack = (s.ip + 2) :: rest →
      (step t).isRunning = true ∧ (step t).stateOf.ip = s.ip + 2 ∧
      (step t).stateOf.stack = rest) := by
  have h0 : s.ip < MEM_SIZE := by omega
  have hs : step s = op_call s := by
    unfold step
    rw [memRead_ok s s.ip h0, hw]
    rfl
  have hcall : op_call s = .running { s with stack := (s.ip + 2) :: s.stack, ip := v } :=
    callResolve_ok { s with stack := (s.ip + 2) :: s.stack } v h1 hv hvlt
  have hret : ∀ (t : VMState) (rest : List Nat), t.ip < MEM_SIZE →
      t.memory t.ip = 18 → t.stack = (s.ip + 2) :: rest →
      step t = .running { t with stack := rest, ip := s.ip + 2 } := by
    intro t rest ht0 htw htst
    have hst : step t = op_ret t := by
      unfold step
      rw [memRead_ok t t.ip ht0, htw]
      rfl
    rw [hst]
    unfold op_ret
    rw [htst]
    exact retTo_ok { t with stack := rest } (s.ip + 2) h2
  refine ⟨?_, ?_, ?_, ?_⟩
  · rw [hs, hcall]
    rfl
  · rw [hs, hcall]
    rfl
  · rw [hs, hcall]
    rfl
  · intro t rest ht0 htw htst
    have h := hret t rest ht0 htw htst
    exact ⟨by rw [h]; rfl, by rw [h]; rfl, by rw [h]; rfl⟩

theorem c8_call_ret_roundtrip_witness :
    (step callProgState).isRunning = true ∧
    (step callProgState).stateOf.ip = 4 ∧
    (step callProgState).stateOf.stack = (callProgState.ip + 2) :: callProgState.stack ∧
    ((step callRetState).isRunning = true ∧
      (step callRetState).stateOf.ip = callProgState.ip + 2 ∧
      (step callRetState).stateOf.stack = []) := by
  have h := c8_call_ret_roundtrip callProgState 4 (by decide) rfl rfl
    (by decide) (by decide)
  exact ⟨h.1, h.2.1, h.2.2.1, h.2.2.2 callRetState [] (by decide) rfl rfl⟩

/-- C9: for operand values b, c in the 15-bit Word range, the value an ADD
instruction stores is `(b + c) % 32768` and the value a MULT instruction
stores is `(b * c) % 32768`; both results are again in `[0, 32767]`, the
uint16 storage leaving them unchanged. -/
theorem c9_add_mult_closed (s t : VMState) (b c : Nat)
    (hb15 : b ≤ MAX_LITERAL) (hc15 : c ≤ MAX_LITERAL)
    (hs4 : s.ip + 4 < MEM_SIZE) (hsw : s.memory s.ip = 9)
    (hsb : load_value s (s.memory (s.ip + 2)) = .ok b)
    (hsc : load_value s (s.memory (s.ip + 3)) = .ok c)
    (hsa : s.memory (s.ip + 1) ≤ MAX_REGISTER)
    (ht4 : t.ip + 4 < MEM_SIZE) (htw : t.memory t.ip = 10)
    (htb : load_value t (t.memory (t.ip + 2)) = .ok b)
    (htc : load_value t (t.memory (t.ip + 3)) = .ok c)
    (hta : t.memory (t.ip + 1) ≤ MAX_REGISTER) :
    stored_at (step s).stateOf (s.memory (s.ip + 1)) = (b + c) % 32768 ∧
    stored_at (step t).stateOf (t.memory (t.ip + 1)) = (b * c) % 32768 ∧
    (b + c) % 32768 ≤ MAX_LITERAL ∧ (b * c) % 32768 ≤ MAX_LITERAL := by
  have h0s : s.ip < MEM_SIZE := by omega
  have h0t : t.ip < MEM_SIZE := by omega
  have hss : step s = binop s addResult := by
    unfold step
    rw [memRead_ok s s.ip h0s, hsw]
    rfl
  have hsmul : step t = binop t multResult := by
    unfold step
    rw [memRead_ok t t.ip h0t, htw]
    rfl
  have hadd := (binop_exec s addResult b c hs4 hsb hsc hsa).2.2
  have hmul := (binop_exec t multResult b c ht4 htb htc hta).2.2
  have hblit : b ≤ 32767 := by simpa [MAX_LITERAL] using hb15
  have hclit : c ≤ 32767 := by simpa [MAX_LITERAL] using hc15
  refine ⟨?_, ?_, ?_, ?_⟩
  · rw [hss, hadd]
    simp only [addResult]
    omega
  · rw [hsmul, hmul]
    simp only [multResult]
    omega
  · simp only [MAX_LITERAL]
    omega
  · simp only [MAX_LITERAL]
    omega

theorem c9_add_mult_closed_witness :
    stored_at (step addProgState).stateOf
      (addProgState.memory (addProgState.ip + 1)) = (30000 + 30000) % 32768 ∧
    stored_at (step multProgState).stateOf
      (multProgState.memory (multProgState.ip + 1)) = (30000 * 30000) % 32768 ∧
    (30000 + 30000) % 32768 ≤ MAX_LITERAL ∧
    (30000 * 30000) % 32768 ≤ MAX_LITERAL :=
  c9_add_mult_closed addProgState multProgState 30000 30000 (by decide)
    (by decide) (by decide) rfl rfl rfl (by decide) (by decide) rfl rfl rfl
    (by decide)

/-- C10: CALL is not atomic on failure: `VM._call` appends the return address
`ip + 2` to the stack before resolving its operand, so when the operand word
exceeds `MAX_REGISTER` the step faults `InvalidOperand` in a state whose
stack is one element deeper than before, with `ip + 2` on top. -/
theorem c10_call_pushes_then_faults (s : VMState) (h0 : s.ip < MEM_SIZE)
    (hw : s.memory s.ip = 17) (h1 : s.ip + 1 < MEM_SIZE)
    (hbad : MAX_REGISTER < s.memory (s.ip + 1)) :
    step s = .faulted .InvalidOperand { s with stack := (s.ip + 2) :: s.stack } := by
  have hs : step s = op_call s := by
    unfold step
    rw [memRead_ok s s.ip h0, hw]
    rfl
  rw [hs]
  exact callResolve_badop { s with stack := (s.ip + 2) :: s.stack } h1 hbad

theorem c10_call_pushes_then_faults_witness :
    step callBadState = .faulted .InvalidOperand
      { callBadState with stack := (callBadState.ip + 2) :: callBadState.stack } :=
  c10_call_pushes_then_faults callBadState (by decide) rfl (by decide) (by decide)
